import Mathlib

/-!
Shallow embedding of `src/www/glyph_calendar.js` (cbare/mhealthx).

JavaScript numbers are modelled as rationals (ℚ): every arithmetic value
occurring in the glyph layout (bar widths, scaled lengths, coordinates) is
exact decimal/rational arithmetic, so ℚ is a faithful carrier for them.
The D3 selection/append calls are modelled as construction of an ordered
list of abstract draw primitives: each `selectAll(...).data(xs).enter()
.append(tag)` block appends one element per bound datum, in document
order, which is exactly the order of the resulting list.
-/

namespace GlyphCalendar

/-- One of the four bar directions of a glyph (the four D3 append blocks
LEFT / RIGHT / UP / DOWN). -/
inductive Direction
  | left
  | right
  | up
  | down
deriving DecidableEq

/-- Pre- or post-medication slot of a direction: index 0 resp. 1 of the
bound two-element data array of the corresponding D3 block. -/
inductive Phase
  | pre
  | post
deriving DecidableEq

/-- Semantic tag of a rectangle primitive, identifying the D3 append block
(and bound-datum index) that produced it.  `missing` are the gray
placeholder rectangles, `bar` the colored data bars. -/
inductive Tag
  | missing (d : Direction) (ph : Phase)
  | bar (d : Direction) (ph : Phase)
  | centerSquare
  | enclosingSquare
deriving DecidableEq

/-- A fill style: a concrete color string, or the string "transparent". -/
inductive Fill
  | color (c : String)
  | transparent
deriving DecidableEq

/-- A rectangle primitive.  The source sets SVG attributes; `tx` models the
x-offset of a `transform: translate(tx, 0)` attribute (0 when the block
sets no transform), `x`/`y` the `x`/`y` attributes (0 when unset, the SVG
default), `stroke` an optional stroke color and width. -/
structure Rectangle where
  tx : ℚ
  x : ℚ
  y : ℚ
  width : ℚ
  height : ℚ
  fill : Fill
  stroke : Option (String × ℚ)
  cssClass : String
deriving DecidableEq

/-- A circle primitive (the background "enclosing circle" block). -/
structure CirclePrim where
  cx : ℚ
  cy : ℚ
  r : ℚ
  strokeColor : String
  strokeWidth : ℚ
  fill : Fill
deriving DecidableEq

/-- The date text primitive. -/
structure TextLabel where
  x : ℚ
  y : ℚ
  fill : String
  fontSize : String
  content : Int
deriving DecidableEq

/-- An abstract draw primitive, as emitted by the glyph layout. -/
inductive Prim
  | circle (c : CirclePrim)
  | rect (r : Rectangle) (tag : Tag)
  | text (t : TextLabel)
deriving DecidableEq

/-- Modelled from the spec: `d3.scale.linear().domain([d0, d1]).range([r0, r1])`
(the D3 library itself is not under src/; src/www/glyph_calendar.js lines
109-114 only construct the scale).  The spec gives the mapping
`range_min + (value - domain_min) * (range_max - range_min) / (domain_max - domain_min)`.
Over ℚ, division by zero yields 0, so a degenerate domain silently yields
`range_min`; the spec records that the reference likewise silently yields a
non-error value on a degenerate domain instead of raising `DomainError`. -/
def linearScale (d0 d1 r0 r1 v : ℚ) : ℚ :=
  r0 + (v - d0) * (r1 - r0) / (d1 - d0)

/-- Embedding of `radial_bars(data, number_of_bars, max_number, date, shade)`
(src/www/glyph_calendar.js lines 66-271).  JS array access `data[k]` past
the end of the array yields `undefined`; the model uses the default 0 there
(all geometry claims concern length-8 vectors, for which no out-of-range
access occurs; for shorter vectors only the primitive count is relied on,
which is independent of this choice).  Each D3 enter/append block appends
one primitive per bound datum in order; the semantic `Tag` records which
block and datum index produced each rectangle. -/
def radial_bars (data : List ℚ) (number_of_bars max_number : ℚ)
    (date : Int) (shade : ℚ) : List Prim :=
  let leftData : List ℚ := [data.getD 0 0, data.getD 1 0]
  let rightData : List ℚ := [data.getD 2 0, data.getD 3 0]
  let upData : List ℚ := [data.getD 4 0, data.getD 5 0]
  let downData : List ℚ := [data.getD 6 0, data.getD 7 0]
  let walk_pre_color := "#20AED8"
  let walk_post_color := "#2C1EA2"
  let stand_pre_color := "#6E6E6E"
  let stand_post_color := "#151515"
  let voice_pre_color := "#EEBE32"
  let voice_post_color := "#9F5B0D"
  let tap_pre_color := "#F78181"
  let tap_post_color := "#C02504"
  let colors := [walk_pre_color, walk_post_color,
                 stand_pre_color, stand_post_color,
                 voice_pre_color, voice_post_color,
                 tap_pre_color, tap_post_color]
  let leftColors := [colors.getD 0 "", colors.getD 1 ""]
  let rightColors := [colors.getD 2 "", colors.getD 3 ""]
  let upColors := [colors.getD 4 "", colors.getD 5 ""]
  let downColors := [colors.getD 6 "", colors.getD 7 ""]
  let background_color := if shade = 0 then "#e2e2e2" else "#e2e2e2"
  let empty_color := if shade = 0 then "#ffffff" else "#ffffff"
  let bar_width : ℚ := 15
  let bar_length : ℚ := 50
  let left_origin := bar_length
  let barplot_width := number_of_bars * bar_width
  let total_width := barplot_width + 2 * bar_length
  let circle_penumbra : ℚ := 20
  let value2length := linearScale 0 max_number 0 bar_length
  let y := linearScale 0 number_of_bars 0 barplot_width
  let translate_y := fun (index : ℚ) => total_width / 2 + y index - bar_width
  let translate_x := fun (i : ℚ) => left_origin + i * bar_width
  -- Enclosing circle: bound to leftData, hence one circle per datum.
  let circles := leftData.map fun _ =>
    Prim.circle { cx := total_width / 2, cy := total_width / 2,
                  r := total_width / 2, strokeColor := "#ffffff",
                  strokeWidth := circle_penumbra,
                  fill := Fill.color background_color }
  -- LEFT missing data:
  let leftMissing := fun (i : ℕ) (ph : Phase) =>
    Prim.rect { tx := 0, x := 0, y := translate_y (i : ℚ),
                width := bar_length, height := bar_width,
                fill := if leftData.getD i 0 = 0 then Fill.color empty_color
                        else Fill.transparent,
                stroke := none, cssClass := "gray" }
      (Tag.missing Direction.left ph)
  -- LEFT data:
  let leftBar := fun (i : ℕ) (ph : Phase) =>
    Prim.rect { tx := 0, x := left_origin - value2length (leftData.getD i 0),
                y := translate_y (i : ℚ),
                width := value2length (leftData.getD i 0),
                height := bar_width - 1,
                fill := Fill.color (leftColors.getD i ""),
                stroke := none, cssClass := "left" }
      (Tag.bar Direction.left ph)
  -- RIGHT missing data:
  let rightMissing := fun (i : ℕ) (ph : Phase) =>
    Prim.rect { tx := 0, x := left_origin + barplot_width,
                y := translate_y (i : ℚ),
                width := bar_length, height := bar_width,
                fill := if rightData.getD i 0 = 0 then Fill.color empty_color
                        else Fill.transparent,
                stroke := none, cssClass := "gray" }
      (Tag.missing Direction.right ph)
  -- RIGHT data:
  let rightBar := fun (i : ℕ) (ph : Phase) =>
    Prim.rect { tx := 0, x := left_origin + barplot_width,
                y := translate_y (i : ℚ),
                width := value2length (rightData.getD i 0),
                height := bar_width - 1,
                fill := Fill.color (rightColors.getD i ""),
                stroke := none, cssClass := "right" }
      (Tag.bar Direction.right ph)
  -- UP missing data:
  let upMissing := fun (i : ℕ) (ph : Phase) =>
    Prim.rect { tx := translate_x (i : ℚ), x := 0, y := 0,
                height := bar_length, width := bar_width,
                fill := if upData.getD i 0 = 0 then Fill.color empty_color
                        else Fill.transparent,
                stroke := none, cssClass := "gray" }
      (Tag.missing Direction.up ph)
  -- UP data:
  let upBar := fun (i : ℕ) (ph : Phase) =>
    Prim.rect { tx := translate_x (i : ℚ), x := 0,
                y := total_width / 2 - value2length (upData.getD i 0) - bar_width,
                height := value2length (upData.getD i 0),
                width := bar_width - 1,
                fill := Fill.color (upColors.getD i ""),
                stroke := none, cssClass := "up" }
      (Tag.bar Direction.up ph)
  -- DOWN missing data:
  let downMissing := fun (i : ℕ) (ph : Phase) =>
    Prim.rect { tx := translate_x (i : ℚ), x := 0,
                y := total_width / 2 + bar_width,
                height := bar_length, width := bar_width,
                fill := if downData.getD i 0 = 0 then Fill.color empty_color
                        else Fill.transparent,
                stroke := none, cssClass := "gray" }
      (Tag.missing Direction.down ph)
  -- DOWN data:
  let downBar := fun (i : ℕ) (ph : Phase) =>
    Prim.rect { tx := translate_x (i : ℚ), x := 0,
                y := total_width / 2 + bar_width,
                height := value2length (downData.getD i 0),
                width := bar_width - 1,
                fill := Fill.color (downColors.getD i ""),
                stroke := none, cssClass := "down" }
      (Tag.bar Direction.down ph)
  -- Center square:
  let centerSquare :=
    Prim.rect { tx := 0, x := total_width / 2 - bar_width,
                y := total_width / 2 - bar_width,
                width := barplot_width, height := barplot_width,
                fill := Fill.color background_color,
                stroke := some ("#aaaaaa", 1), cssClass := "" }
      Tag.centerSquare
  -- Enclosing square:
  let enclosingSquare :=
    Prim.rect { tx := 0, x := 0, y := 0,
                width := total_width, height := total_width,
                fill := Fill.transparent,
                stroke := some ("#aaaaaa", 1), cssClass := "" }
      Tag.enclosingSquare
  -- Date text:
  let dateText :=
    Prim.text { x := 4, y := 16, fill := "black", fontSize := "9pt",
                content := date }
  circles
    ++ [leftMissing 0 Phase.pre, leftMissing 1 Phase.post]
    ++ [leftBar 0 Phase.pre, leftBar 1 Phase.post]
    ++ [rightMissing 0 Phase.pre, rightMissing 1 Phase.post]
    ++ [rightBar 0 Phase.pre, rightBar 1 Phase.post]
    ++ [upMissing 0 Phase.pre, upMissing 1 Phase.post]
    ++ [upBar 0 Phase.pre, upBar 1 Phase.post]
    ++ [downMissing 0 Phase.pre, downMissing 1 Phase.post]
    ++ [downBar 0 Phase.pre, downBar 1 Phase.post]
    ++ [centerSquare, enclosingSquare, dateText]

/-- Embedding of the grid traversal of `drawGraphsForMonthlyData`
(src/www/glyph_calendar.js lines 48-61): two nested loops, `i` over 5 rows
and `j` over 7 columns, each iteration reading `dates[j*5 + i]` and
`data[i*7 + j]` and calling `radial_bars` once with `number_of_bars = 2`,
`max_number = 20` and `shade = 0` (the values the enclosing function fixes).
The hard-coded `dates` array and the random `data` of the source are passed
in as parameters; out-of-range access is modelled by `getD` defaults. -/
def drawGraphsForMonthlyData (dates : List Int) (data : List (List ℚ)) :
    List (List Prim) :=
  (List.range 5).flatMap fun i =>
    (List.range 7).map fun j =>
      radial_bars (data.getD (i * 7 + j) []) 2 20 (dates.getD (j * 5 + i) 0) 0

/-- The leading significant decimal digit of a positive rational, read off
its magnitude: `⌊q / 10 ^ ⌊log₁₀ q⌋⌋`. -/
def jsLeadingDigit (q : ℚ) : Int :=
  ⌊q / (10 : ℚ) ^ Int.log 10 q⌋

/-- JS `parseInt` on a positive finite number: ECMAScript `parseInt` first
converts the number to a string.  Magnitudes in `[1e-6, 1e21)` print in
fixed decimal notation, so `parseInt` reads the integer part (truncation);
magnitudes below `1e-6` or at least `1e21` print in exponential notation
`d.ddd…e±k` with a single leading mantissa digit, so `parseInt` stops at
the decimal point and returns just that leading significant digit.  The
model reads the digit off the exact rational magnitude (the source's value
is an IEEE-754 double, whose shortest round-trip representation has the
same leading digit away from representation boundaries). -/
def jsParseIntPos (q : ℚ) : Int :=
  if q < 1 / 1000000 ∨ (10 : ℚ) ^ (21 : ℕ) ≤ q then jsLeadingDigit q else ⌊q⌋

/-- JS `parseInt` applied to a finite number (src line 11 applies it to
`Math.random() * max_number`): zero maps to 0, and a negative number
stringifies as a minus sign followed by its magnitude, which `parseInt`
parses as the negated positive result. -/
def jsParseInt (q : ℚ) : Int :=
  if q = 0 then 0
  else if 0 < q then jsParseIntPos q
  else -jsParseIntPos (-q)

/-- Embedding of `randomNumbers(number_of_values, max_number)`
(src/www/glyph_calendar.js lines 8-14).  `Math.random()` is modelled as an
explicit stream `rand` of draws, the `i`-th loop iteration consuming
`rand i`; the loop pushes `parseInt(Math.random() * max_number)` once per
iteration. -/
def randomNumbers (number_of_values : ℕ) (max_number : ℚ)
    (rand : ℕ → ℚ) : List Int :=
  (List.range number_of_values).map fun i => jsParseInt (rand i * max_number)

/-- Embedding of `getDataForMonth(number_of_values, max_number)`
(src/www/glyph_calendar.js lines 16-22): 35 successive calls of
`randomNumbers`, the `m`-th call consuming the next `number_of_values`
draws of the stream. -/
def getDataForMonth (number_of_values : ℕ) (max_number : ℚ)
    (rand : ℕ → ℚ) : List (List Int) :=
  (List.range 35).map fun m =>
    randomNumbers number_of_values max_number
      (fun k => rand (m * number_of_values + k))

/-- Whether a primitive is a circle. -/
def Prim.isCircle : Prim → Bool
  | Prim.circle _ => true
  | _ => false

/-- The shape/tag skeleton of a primitive, forgetting all resolved
geometry and styling. -/
inductive Marker
  | circle
  | rect (t : Tag)
  | text
deriving DecidableEq

/-- The marker of a primitive. -/
def Prim.marker : Prim → Marker
  | Prim.circle _ => Marker.circle
  | Prim.rect _ t => Marker.rect t
  | Prim.text _ => Marker.text

/-- The first rectangle primitive carrying a given tag, if any. -/
def findRect (ps : List Prim) (t : Tag) : Option Rectangle :=
  (ps.filterMap fun p =>
    match p with
    | Prim.rect r t2 => if t2 = t then some r else none
    | _ => none).head?

/-- The extent of a rectangle along the axis a direction grows in:
horizontal (width) for left/right bars, vertical (height) for up/down. -/
def axisLen (d : Direction) (r : Rectangle) : ℚ :=
  match d with
  | Direction.left => r.width
  | Direction.right => r.width
  | Direction.up => r.height
  | Direction.down => r.height

/-- The extent of a rectangle across a direction's growth axis. -/
def crossLen (d : Direction) (r : Rectangle) : ℚ :=
  match d with
  | Direction.left => r.height
  | Direction.right => r.height
  | Direction.up => r.width
  | Direction.down => r.width

/-- The index into the 8-value vector feeding a given direction/phase:
`[(0,1),(2,3),(4,5),(6,7)]` for left/right/up/down (src lines 70-73). -/
def slotIdx : Direction → Phase → ℕ
  | Direction.left, Phase.pre => 0
  | Direction.left, Phase.post => 1
  | Direction.right, Phase.pre => 2
  | Direction.right, Phase.post => 3
  | Direction.up, Phase.pre => 4
  | Direction.up, Phase.post => 5
  | Direction.down, Phase.pre => 6
  | Direction.down, Phase.post => 7

/-- The pixel length of the data bar for a direction/phase. -/
def dataBarLen (ps : List Prim) (d : Direction) (ph : Phase) : Option ℚ :=
  (findRect ps (Tag.bar d ph)).map (axisLen d)

/-- The fill of the missing-data placeholder for a direction/phase. -/
def missingFill (ps : List Prim) (d : Direction) (ph : Phase) : Option Fill :=
  (findRect ps (Tag.missing d ph)).map Rectangle.fill

/-- A rectangle lies entirely within the axis-aligned square
`[0, tw] × [0, tw]` (its effective left edge is `tx + x`). -/
def rectInSquare (tw : ℚ) (r : Rectangle) : Prop :=
  0 ≤ r.tx + r.x ∧ 0 ≤ r.y ∧ r.tx + r.x + r.width ≤ tw ∧ r.y + r.height ≤ tw

/-- The glyph of the spec's worked scenario: vector `[0,5,10,20,0,0,15,3]`,
`max_number = 20` (`bar_length` is the source's fixed 50), with the
caller's `number_of_bars = 2` and `shade = 0`, and an arbitrary date. -/
def scenarioGlyph : List Prim :=
  radial_bars [0, 5, 10, 20, 0, 0, 15, 3] 2 20 1 0

/-- The marker sequence `radial_bars` always emits: two coincident
background circles, then per direction (left, right, up, down) the two
missing placeholders followed by the two data bars, then the center square,
the enclosing square and the date text. -/
def expectedMarkers : List Marker :=
  [Marker.circle, Marker.circle,
   Marker.rect (Tag.missing Direction.left Phase.pre),
   Marker.rect (Tag.missing Direction.left Phase.post),
   Marker.rect (Tag.bar Direction.left Phase.pre),
   Marker.rect (Tag.bar Direction.left Phase.post),
   Marker.rect (Tag.missing Direction.right Phase.pre),
   Marker.rect (Tag.missing Direction.right Phase.post),
   Marker.rect (Tag.bar Direction.right Phase.pre),
   Marker.rect (Tag.bar Direction.right Phase.post),
   Marker.rect (Tag.missing Direction.up Phase.pre),
   Marker.rect (Tag.missing Direction.up Phase.post),
   Marker.rect (Tag.bar Direction.up Phase.pre),
   Marker.rect (Tag.bar Direction.up Phase.post),
   Marker.rect (Tag.missing Direction.down Phase.pre),
   Marker.rect (Tag.missing Direction.down Phase.post),
   Marker.rect (Tag.bar Direction.down Phase.pre),
   Marker.rect (Tag.bar Direction.down Phase.post),
   Marker.rect Tag.centerSquare,
   Marker.rect Tag.enclosingSquare,
   Marker.text]

/-- Range of the value scale on its domain: `linearScale 0 m 0 L` maps
`[0, m]` into `[0, L]` when `0 < m` and `0 ≤ L`. -/
theorem linearScale_bounds (m L x : ℚ) (hm : 0 < m) (hL : 0 ≤ L)
    (h0 : 0 ≤ x) (h1 : x ≤ m) :
    0 ≤ linearScale 0 m 0 L x ∧ linearScale 0 m 0 L x ≤ L := by
  unfold linearScale
  rw [sub_zero, sub_zero, sub_zero, zero_add]
  constructor
  · positivity
  · rw [div_le_iff₀ hm]
    nlinarith [mul_le_mul_of_nonneg_right h1 hL]

/-- C1: on the spec's worked scenario (vector `[0,5,10,20,0,0,15,3]`,
`maxValue = 20`, `barLength = 50`) the layout assigns by linear scaling:
Left-pre bar length 0 with a visible (emptyColor-filled) missing
placeholder, Left-post bar length 12.5, Up-pre and Up-post bars length 0
with visible missing placeholders, Down-pre bar length 37.5 and Down-post
bar length 7.5. -/
theorem c1_scenario_bar_lengths :
    dataBarLen scenarioGlyph Direction.left Phase.pre = some 0 ∧
    missingFill scenarioGlyph Direction.left Phase.pre = some (Fill.color "#ffffff") ∧
    dataBarLen scenarioGlyph Direction.left Phase.post = some (25 / 2) ∧
    dataBarLen scenarioGlyph Direction.up Phase.pre = some 0 ∧
    missingFill scenarioGlyph Direction.up Phase.pre = some (Fill.color "#ffffff") ∧
    dataBarLen scenarioGlyph Direction.up Phase.post = some 0 ∧
    missingFill scenarioGlyph Direction.up Phase.post = some (Fill.color "#ffffff") ∧
    dataBarLen scenarioGlyph Direction.down Phase.pre = some (75 / 2) ∧
    dataBarLen scenarioGlyph Direction.down Phase.post = some (15 / 2) := by
  norm_num +decide [dataBarLen, missingFill, findRect, scenarioGlyph, radial_bars,
    linearScale, axisLen, List.findSome?_cons]

/-- C2 (counterexample): the layout does not emit exactly one background
circle — the circle block is data-bound to the two-element left pair, so on
the scenario vector it emits two coincident background circles, refuting
the claimed single-circle prefix of the primitive sequence. -/
theorem c2_one_circle_refuted :
    (radial_bars [0, 5, 10, 20, 0, 0, 15, 3] 2 20 1 0).countP Prim.isCircle ≠ 1 := by
  decide

/-- C2 (amended): for every 8-value vector and configuration the layout
emits exactly this ordered primitive sequence: two coincident background
circles, then for each of the four directions a missing-placeholder group
followed by a data-bar group (8 placeholder and 8 data rectangles in
total), then the center square, then the enclosing square, then one text
label. -/
theorem c2_primitive_order (v : List ℚ) (nb mx : ℚ) (date : Int) (shade : ℚ)
    (_hlen : v.length = 8) :
    (radial_bars v nb mx date shade).map Prim.marker = expectedMarkers := rfl

/-- Witness for C2 at the scenario input. -/
theorem c2_primitive_order_witness :
    (radial_bars [0, 5, 10, 20, 0, 0, 15, 3] 2 20 1 0).map Prim.marker = expectedMarkers :=
  c2_primitive_order [0, 5, 10, 20, 0, 0, 15, 3] 2 20 1 0 (by decide)

/-- C3: for every direction and phase, the layout always emits a
full-length (`bar_length = 50`) placeholder rectangle tagged as missing
for that direction/phase, filled with `empty_color` (`"#ffffff"`) exactly
when the corresponding vector entry is 0 and transparent otherwise. -/
theorem c3_zero_value_policy (v : List ℚ) (nb mx : ℚ) (date : Int) (shade : ℚ)
    (d : Direction) (ph : Phase) :
    ∃ r, findRect (radial_bars v nb mx date shade) (Tag.missing d ph) = some r ∧
      axisLen d r = 50 ∧
      r.fill = (if v.getD (slotIdx d ph) 0 = 0 then Fill.color "#ffffff"
                else Fill.transparent) := by
  cases d <;> cases ph <;> exact ⟨_, rfl, rfl, by simp [slotIdx]⟩

/-- C4 (code evaluated at the failing input): with a degenerate scale
domain — `maxValue = 0`, so `domainMax = domainMin = 0` — the value scale
raises no error and silently returns 0 for every input (the ℚ-model of the
reference's silent non-error result), rather than failing with
`DomainError` as the spec requires. -/
theorem c4_degenerate_domain_silent (v : ℚ) :
    linearScale 0 0 0 50 v = 0 := by
  norm_num [linearScale]

/-- C5: the grid composer traverses a fixed 5-row by 7-column grid and the
cell at row `i`, column `j` (the `(i*7+j)`-th glyph emitted) is produced by
exactly one `radial_bars` call on date label `dates[j*5 + i]` and metric
vector `data[i*7 + j]`; 35 cells in total. -/
theorem c5_grid_traversal (dates : List Int) (data : List (List ℚ)) :
    (drawGraphsForMonthlyData dates data).length = 35 ∧
    ∀ i j, i < 5 → j < 7 →
      (drawGraphsForMonthlyData dates data).getD (i * 7 + j) [] =
        radial_bars (data.getD (i * 7 + j) []) 2 20 (dates.getD (j * 5 + i) 0) 0 := by
  refine ⟨rfl, ?_⟩
  intro i j hi hj
  interval_cases i <;> interval_cases j <;> rfl

/-- Witness for C5 at row 1, column 2 on empty label/data lists. -/
theorem c5_grid_traversal_witness :
    (drawGraphsForMonthlyData [] []).getD (1 * 7 + 2) [] =
      radial_bars (([] : List (List ℚ)).getD (1 * 7 + 2) []) 2 20
        (([] : List Int).getD (2 * 5 + 1) 0) 0 :=
  (c5_grid_traversal [] []).2 1 2 (by norm_num) (by norm_num)

/-- C6 (code evaluated at the failing input): on a 7-entry vector the
layout raises no `InvalidVectorLength` error and still emits the full
21-primitive glyph (in the source the out-of-range entries read as
`undefined`), contradicting the claim that no primitives are produced. -/
theorem c6_short_vector_layout :
    (radial_bars [0, 5, 10, 20, 0, 0, 15] 2 20 1 0).length = 21 := rfl

/-- C7: the value-to-length scale `linearScale 0 max 0 L` is monotone on
`[0, max]` and maps the boundaries exactly: 0 to 0 and `max` to `L`. -/
theorem c7_scale_monotone_and_boundaries (mx L v1 v2 : ℚ)
    (hmx : 0 < mx) (hL : 0 ≤ L) (_hv1 : 0 ≤ v1) (hlt : v1 < v2) (_hv2 : v2 ≤ mx) :
    linearScale 0 mx 0 L v1 ≤ linearScale 0 mx 0 L v2 ∧
    linearScale 0 mx 0 L 0 = 0 ∧ linearScale 0 mx 0 L mx = L := by
  have hs : ∀ x, linearScale 0 mx 0 L x = x * L / mx := fun x => by
    unfold linearScale; ring
  refine ⟨?_, ?_, ?_⟩
  · rw [hs, hs]
    exact (div_le_div_iff_of_pos_right hmx).mpr (mul_le_mul_of_nonneg_right hlt.le hL)
  · rw [hs]
    norm_num
  · rw [hs, mul_comm, mul_div_assoc, div_self hmx.ne', mul_one]

/-- Witness for C7 at `max = 20`, `L = 50`, `v1 = 5`, `v2 = 10`. -/
theorem c7_scale_monotone_and_boundaries_witness :
    linearScale 0 20 0 50 5 ≤ linearScale 0 20 0 50 10 ∧
    linearScale 0 20 0 50 0 = 0 ∧ linearScale 0 20 0 50 20 = 50 :=
  c7_scale_monotone_and_boundaries 20 50 5 10 (by norm_num) (by norm_num)
    (by norm_num) (by norm_num) (by norm_num)

/-- C8 (code evaluated at the failing input): with `max_number = 3` and
the attainable draw `5/16777216 = 5 * 2^(-24)`, the scaled value
`15/16777216 ≈ 8.94e-7` stringifies in exponential notation, so `parseInt`
returns its leading significant digit 8: the provider emits 8, which is
not in `[0, 3)` (and contradicts the source's own comment "random numbers
with maximum value max_number"), even though the draw lies in `[0, 1)`. -/
theorem c8_small_product_out_of_range :
    randomNumbers 1 3 (fun _ => (5 : ℚ) / 16777216) = [8] ∧
    (0 : ℚ) ≤ 5 / 16777216 ∧ (5 : ℚ) / 16777216 < 1 ∧ ¬((8 : ℚ) < 3) := by
  refine ⟨?_, by norm_num, by norm_num, by norm_num⟩
  have hq0 : (0 : ℚ) < 15 / 16777216 := by norm_num
  have hlog : Int.log 10 ((15 : ℚ) / 16777216) = -7 := by
    have hub : Int.log 10 ((15 : ℚ) / 16777216) < -6 :=
      (Int.lt_zpow_iff_log_lt (by norm_num) hq0).mp (by norm_num)
    have hlb : (-7 : ℤ) ≤ Int.log 10 ((15 : ℚ) / 16777216) :=
      (Int.zpow_le_iff_le_log (by norm_num) hq0).mp (by norm_num)
    omega
  have hdigit : jsLeadingDigit ((15 : ℚ) / 16777216) = 8 := by
    rw [jsLeadingDigit, hlog, Int.floor_eq_iff]
    norm_num
  simp only [randomNumbers, List.range_succ, List.range_zero, List.map,
    List.nil_append, List.map_cons]
  norm_num [jsParseInt, jsParseIntPos, hdigit]

/-- C9: for every 8-value vector whose entries lie in `[0, max_number]`
(with `max_number > 0`), every rectangle primitive the layout emits lies
entirely within the glyph's bounding square `[0, 130] × [0, 130]`, where
`130 = number_of_bars * bar_width + 2 * bar_length = 2*15 + 2*50` with the
source's fixed dimensions: bars grow from the central square outward and
never extend past the enclosing square. -/
theorem c9_rectangles_within_glyph (v : List ℚ) (mx : ℚ) (date : Int) (shade : ℚ)
    (hmx : 0 < mx) (hlen : v.length = 8)
    (hval : ∀ x ∈ v, 0 ≤ x ∧ x ≤ mx) :
    ∀ r t, Prim.rect r t ∈ radial_bars v 2 mx date shade →
      rectInSquare 130 r := by
  obtain ⟨a0, a1, a2, a3, a4, a5, a6, a7, rfl⟩ :
      ∃ a0 a1 a2 a3 a4 a5 a6 a7, v = [a0, a1, a2, a3, a4, a5, a6, a7] := by
    rcases v with _|⟨a0,_|⟨a1,_|⟨a2,_|⟨a3,_|⟨a4,_|⟨a5,_|⟨a6,_|⟨a7,_|⟨a8,t⟩⟩⟩⟩⟩⟩⟩⟩⟩ <;>
      first
        | exact ⟨_, _, _, _, _, _, _, _, rfl⟩
        | simp_all
  have h0 := hval a0 (by simp)
  have h1 := hval a1 (by simp)
  have h2 := hval a2 (by simp)
  have h3 := hval a3 (by simp)
  have h4 := hval a4 (by simp)
  have h5 := hval a5 (by simp)
  have h6 := hval a6 (by simp)
  have h7 := hval a7 (by simp)
  have q0 := linearScale_bounds mx 50 a0 hmx (by norm_num) h0.1 h0.2
  have q1 := linearScale_bounds mx 50 a1 hmx (by norm_num) h1.1 h1.2
  have q2 := linearScale_bounds mx 50 a2 hmx (by norm_num) h2.1 h2.2
  have q3 := linearScale_bounds mx 50 a3 hmx (by norm_num) h3.1 h3.2
  have q4 := linearScale_bounds mx 50 a4 hmx (by norm_num) h4.1 h4.2
  have q5 := linearScale_bounds mx 50 a5 hmx (by norm_num) h5.1 h5.2
  have q6 := linearScale_bounds mx 50 a6 hmx (by norm_num) h6.1 h6.2
  have q7 := linearScale_bounds mx 50 a7 hmx (by norm_num) h7.1 h7.2
  intro r t hr
  simp [radial_bars,
    show linearScale 0 2 0 (2 * 15) 0 = 0 by norm_num [linearScale],
    show linearScale 0 2 0 (2 * 15) 1 = 15 by norm_num [linearScale]] at hr
  obtain hr|hr|hr|hr|hr|hr|hr|hr|hr|hr|hr|hr|hr|hr|hr|hr|hr|hr := hr <;>
    obtain ⟨rfl, rfl⟩ := hr <;>
    simp only [rectInSquare] <;>
    refine ⟨?_, ?_, ?_, ?_⟩ <;>
    linarith [q0.1, q0.2, q1.1, q1.2, q2.1, q2.2, q3.1, q3.2,
      q4.1, q4.2, q5.1, q5.2, q6.1, q6.2, q7.1, q7.2]

set_option maxHeartbeats 1600000 in
/-- Witness for C9: the Up-pre missing placeholder of the scenario glyph
lies within the bounding square. -/
theorem c9_rectangles_within_glyph_witness :
    rectInSquare 130
      (Rectangle.mk 50 0 0 15 50 (Fill.color "#ffffff") none "gray") :=
  c9_rectangles_within_glyph [0, 5, 10, 20, 0, 0, 15, 3] 20 1 0 (by norm_num) rfl
    (by norm_num) _ (Tag.missing Direction.up Phase.pre)
    (by norm_num [radial_bars, linearScale])

/-- C10: for every direction and phase the missing placeholder is exactly
`bar_width = 15` thick across the bar axis while the data bar is exactly
`bar_width - 1 = 14` thick, one pixel thinner. -/
theorem c10_bar_thickness (v : List ℚ) (nb mx : ℚ) (date : Int) (shade : ℚ)
    (d : Direction) (ph : Phase) :
    ∃ rm rb, findRect (radial_bars v nb mx date shade) (Tag.missing d ph) = some rm ∧
      findRect (radial_bars v nb mx date shade) (Tag.bar d ph) = some rb ∧
      crossLen d rm = 15 ∧ crossLen d rb = 14 := by
  cases d <;> cases ph <;>
    exact ⟨_, _, rfl, rfl, rfl, by norm_num [crossLen]⟩

end GlyphCalendar

